import Mathlib

/-!
Verification development for the region-proposal core of `lib/nets/network.py`
(CTPN-style Faster R-CNN region proposal network).

The Python source is embedded shallowly: tensors over one anchor batch become
lists of rational 4-vectors, the mutable `self._predictions` / `self._losses` /
`self._anchor_targets` dictionaries become association lists threaded through
explicit state records, and fallible construction returns `Except`.
Real-valued tensor arithmetic is modelled over `ℚ` so that every definition is
executable and concrete instances can be checked by `decide` / `norm_num`.
-/

namespace CTPN

/-- A 4-component coordinate vector, one per box regression target
(`x1, y1, x2, y2` deltas). -/
structure Vec4 where
  c0 : ℚ
  c1 : ℚ
  c2 : ℚ
  c3 : ℚ
deriving DecidableEq, Repr

/-- The all-zero 4-vector (used as the gather default and as the degenerate
padding box in the top-K decoder). -/
def Vec4.zero : Vec4 := ⟨0, 0, 0, 0⟩

/-! ### Smooth L1 loss (`Network._smooth_l1_loss`, network.py lines 181-197) -/

/-- `smoothL1_sign = to_float(less(abs_in_box_diff, 1/sigma_2))` from
network.py line 186: `1` on the quadratic branch, `0` on the linear branch. -/
def smoothL1_sign (sigma_2 d : ℚ) : ℚ :=
  if |d| < 1 / sigma_2 then 1 else 0

/-- The quadratic branch value `pow(in_box_diff, 2) * (sigma_2 / 2.)` from
network.py line 187. -/
def quadBranch (sigma_2 d : ℚ) : ℚ := d ^ 2 * (sigma_2 / 2)

/-- The linear branch value `abs_in_box_diff - (0.5 / sigma_2)` from
network.py line 188. -/
def linBranch (sigma_2 d : ℚ) : ℚ := |d| - (1 / 2) / sigma_2

/-- Per-coordinate `in_loss_box` from network.py lines 187-188:
`quad * sign + lin * (1 - sign)`. -/
def in_loss_coord (sigma_2 d : ℚ) : ℚ :=
  quadBranch sigma_2 d * smoothL1_sign sigma_2 d
    + linBranch sigma_2 d * (1 - smoothL1_sign sigma_2 d)

/-- One anchor row of `out_loss_box` summed over its 4 coordinates
(`reduce_sum(out_loss_box, axis=dim)` with `dim=[1]` on a `(batch, 4)`
tensor): `bbox_outside_weights * in_loss_box`, coordinates summed. -/
def out_loss_row (sigma_2 : ℚ) (pred target inw outw : Vec4) : ℚ :=
  outw.c0 * in_loss_coord sigma_2 (inw.c0 * (pred.c0 - target.c0))
    + outw.c1 * in_loss_coord sigma_2 (inw.c1 * (pred.c1 - target.c1))
    + outw.c2 * in_loss_coord sigma_2 (inw.c2 * (pred.c2 - target.c2))
    + outw.c3 * in_loss_coord sigma_2 (inw.c3 * (pred.c3 - target.c3))

/-- `reduce_mean` of a list of scalars (empty list maps to `0`, since `ℚ`
division by zero is `0`). -/
def mean (xs : List ℚ) : ℚ := xs.sum / xs.length

/-- `Network._smooth_l1_loss` (network.py lines 181-197) on a batch of
anchors, each anchor a `(pred, target, inside_w, outside_w)` quadruple of
4-vectors: `sigma_2 = sigma ** 2`, per-row coordinate sums, batch mean. -/
def smooth_l1_loss (sigma : ℚ) (batch : List (Vec4 × Vec4 × Vec4 × Vec4)) : ℚ :=
  mean (batch.map fun b => out_loss_row (sigma ^ 2) b.1 b.2.1 b.2.2.1 b.2.2.2)

/-- The smooth-L1 contribution of one coordinate as the spec words it
(spec §4.5): if `|diff| < 1/sigma2` then `0.5 * sigma2 * diff^2` else
`|diff| - 0.5/sigma2`. -/
def specCoordContribution (sigma2 diff : ℚ) : ℚ :=
  if |diff| < 1 / sigma2 then (1 / 2) * sigma2 * diff ^ 2 else |diff| - (1 / 2) / sigma2

/-- Smooth-L1 loss as the spec words it (spec §4.5): `diff = inside_w *
(pred - target)` per coordinate, each contribution multiplied by
`outside_w`, the 4 coordinates summed, per-anchor sums averaged over the
batch. -/
def spec_smooth_l1_loss (sigma : ℚ) (batch : List (Vec4 × Vec4 × Vec4 × Vec4)) : ℚ :=
  let sigma2 := sigma ^ 2
  mean (batch.map fun b =>
    b.2.2.2.c0 * specCoordContribution sigma2 (b.2.2.1.c0 * (b.1.c0 - b.2.1.c0))
      + b.2.2.2.c1 * specCoordContribution sigma2 (b.2.2.1.c1 * (b.1.c1 - b.2.1.c1))
      + b.2.2.2.c2 * specCoordContribution sigma2 (b.2.2.1.c2 * (b.1.c2 - b.2.1.c2))
      + b.2.2.2.c3 * specCoordContribution sigma2 (b.2.2.1.c3 * (b.1.c3 - b.2.1.c3)))

lemma in_loss_coord_eq_spec (sigma_2 d : ℚ) :
    in_loss_coord sigma_2 d = specCoordContribution sigma_2 d := by
  unfold in_loss_coord specCoordContribution smoothL1_sign quadBranch linBranch
  by_cases h : |d| < 1 / sigma_2
  · rw [if_pos h, if_pos h]; ring
  · rw [if_neg h, if_neg h]; ring

lemma out_loss_row_eq_spec (sigma_2 : ℚ) (p t iw ow : Vec4) :
    out_loss_row sigma_2 p t iw ow
      = ow.c0 * specCoordContribution sigma_2 (iw.c0 * (p.c0 - t.c0))
        + ow.c1 * specCoordContribution sigma_2 (iw.c1 * (p.c1 - t.c1))
        + ow.c2 * specCoordContribution sigma_2 (iw.c2 * (p.c2 - t.c2))
        + ow.c3 * specCoordContribution sigma_2 (iw.c3 * (p.c3 - t.c3)) := by
  unfold out_loss_row
  rw [in_loss_coord_eq_spec, in_loss_coord_eq_spec, in_loss_coord_eq_spec,
    in_loss_coord_eq_spec]

/-- **C1.** For every batch of prediction / target / inside-weight /
outside-weight 4-vectors and every `sigma > 0`, `_smooth_l1_loss` equals
the spec formula: with `sigma2 = sigma^2` and `diff = inside_w * (pred -
target)`, each coordinate contributes `0.5 * sigma2 * diff^2` when
`|diff| < 1/sigma2` and `|diff| - 0.5/sigma2` otherwise, multiplied by
`outside_w`, summed over the 4 coordinates, then averaged across the batch
of anchors. -/
theorem smooth_l1_loss_matches_spec (sigma : ℚ) (_h : 0 < sigma)
    (batch : List (Vec4 × Vec4 × Vec4 × Vec4)) :
    smooth_l1_loss sigma batch = spec_smooth_l1_loss sigma batch := by
  unfold smooth_l1_loss spec_smooth_l1_loss
  congr 1
  refine List.map_congr_left fun b _ => ?_
  exact out_loss_row_eq_spec (sigma ^ 2) b.1 b.2.1 b.2.2.1 b.2.2.2

/-- Witness for C1 at `sigma = 3`, a singleton batch with a residual on the
linear branch. -/
theorem smooth_l1_loss_matches_spec_witness :
    (0 : ℚ) < 3 ∧
      smooth_l1_loss 3 [(⟨2, 0, 0, 0⟩, ⟨0, 0, 0, 0⟩, ⟨1, 1, 1, 1⟩, ⟨1, 1, 1, 1⟩)]
        = spec_smooth_l1_loss 3 [(⟨2, 0, 0, 0⟩, ⟨0, 0, 0, 0⟩, ⟨1, 1, 1, 1⟩, ⟨1, 1, 1, 1⟩)] :=
  ⟨by norm_num,
    smooth_l1_loss_matches_spec 3 (by norm_num)
      [(⟨2, 0, 0, 0⟩, ⟨0, 0, 0, 0⟩, ⟨1, 1, 1, 1⟩, ⟨1, 1, 1, 1⟩)]⟩

/-- **C7.** For `sigma = 1` (so `sigma2 = 1`), the smooth-L1 per-coordinate
contribution is continuous at the branch boundary: at `|diff|` exactly
`1/sigma2` the quadratic branch `0.5 * sigma2 * diff^2` and the linear
branch `|diff| - 0.5/sigma2` take the same value. -/
theorem smooth_l1_boundary_continuous (d : ℚ) (h : |d| = 1 / (1 : ℚ) ^ 2) :
    quadBranch ((1 : ℚ) ^ 2) d = linBranch ((1 : ℚ) ^ 2) d := by
  unfold quadBranch linBranch
  have hd : d ^ 2 = 1 := by
    have := sq_abs d
    rw [h] at this
    simpa using this.symm
  rw [h, hd]
  norm_num

/-- Witness for C7 at `d = -1`. -/
theorem smooth_l1_boundary_continuous_witness :
    quadBranch ((1 : ℚ) ^ 2) (-1) = linBranch ((1 : ℚ) ^ 2) (-1) :=
  smooth_l1_boundary_continuous (-1) (by norm_num)

lemma in_loss_coord_nonneg (sigma_2 d : ℚ) (hs : 0 < sigma_2) :
    0 ≤ in_loss_coord sigma_2 d := by
  unfold in_loss_coord quadBranch linBranch smoothL1_sign
  by_cases h : |d| < 1 / sigma_2
  · simp only [h, if_pos]
    have : 0 ≤ d ^ 2 * (sigma_2 / 2) := by positivity
    linarith
  · simp only [h, if_neg, not_false_iff]
    push_neg at h
    have h1 : (1 / 2) / sigma_2 ≤ 1 / sigma_2 := by
      rw [div_le_div_iff_of_pos_right hs]
      norm_num
    linarith

lemma out_loss_row_nonneg (sigma_2 : ℚ) (hs : 0 < sigma_2) (p t iw ow : Vec4)
    (h0 : 0 ≤ ow.c0) (h1 : 0 ≤ ow.c1) (h2 : 0 ≤ ow.c2) (h3 : 0 ≤ ow.c3) :
    0 ≤ out_loss_row sigma_2 p t iw ow := by
  unfold out_loss_row
  have n0 := in_loss_coord_nonneg sigma_2 (iw.c0 * (p.c0 - t.c0)) hs
  have n1 := in_loss_coord_nonneg sigma_2 (iw.c1 * (p.c1 - t.c1)) hs
  have n2 := in_loss_coord_nonneg sigma_2 (iw.c2 * (p.c2 - t.c2)) hs
  have n3 := in_loss_coord_nonneg sigma_2 (iw.c3 * (p.c3 - t.c3)) hs
  have m0 := mul_nonneg h0 n0
  have m1 := mul_nonneg h1 n1
  have m2 := mul_nonneg h2 n2
  have m3 := mul_nonneg h3 n3
  linarith

/-- All four components of an outside-weight vector are non-negative. -/
def Vec4.Nonneg (v : Vec4) : Prop := 0 ≤ v.c0 ∧ 0 ≤ v.c1 ∧ 0 ≤ v.c2 ∧ 0 ≤ v.c3

instance (v : Vec4) : Decidable v.Nonneg := by
  unfold Vec4.Nonneg
  infer_instance

/-- **C10.** For every batch whose outside-weight vectors are componentwise
non-negative and every `sigma > 0`, the smooth-L1 loss is non-negative:
each per-coordinate branch selected by the `|diff| < 1/sigma2` test is
non-negative, so the weighted coordinate sums and the batch mean are
non-negative. -/
theorem smooth_l1_loss_nonneg (sigma : ℚ) (hsigma : 0 < sigma)
    (batch : List (Vec4 × Vec4 × Vec4 × Vec4))
    (hw : ∀ b ∈ batch, Vec4.Nonneg b.2.2.2) :
    0 ≤ smooth_l1_loss sigma batch := by
  unfold smooth_l1_loss mean
  have hs2 : 0 < sigma ^ 2 := by positivity
  have hsum : 0 ≤ (batch.map fun b =>
      out_loss_row (sigma ^ 2) b.1 b.2.1 b.2.2.1 b.2.2.2).sum := by
    apply List.sum_nonneg
    intro x hx
    rcases List.mem_map.mp hx with ⟨b, hb, rfl⟩
    rcases hw b hb with ⟨w0, w1, w2, w3⟩
    exact out_loss_row_nonneg (sigma ^ 2) hs2 b.1 b.2.1 b.2.2.1 b.2.2.2 w0 w1 w2 w3
  positivity

/-- Witness for C10 at `sigma = 2` on a two-anchor batch with non-negative
outside weights. -/
theorem smooth_l1_loss_nonneg_witness :
    0 ≤ smooth_l1_loss 2
      [(⟨1, 0, 0, 0⟩, ⟨0, 0, 0, 0⟩, ⟨1, 1, 1, 1⟩, ⟨1, 0, 2, 1⟩),
       (⟨0, 5, 0, 0⟩, ⟨0, 0, 0, 0⟩, ⟨1, 1, 1, 1⟩, ⟨0, 0, 0, 0⟩)] :=
  smooth_l1_loss_nonneg 2 (by norm_num) _ (by decide)

/-! ### Loss assembly (`Network._build_losses`, network.py lines 199-235) -/

/-- `rpn_select = tf.where(tf.not_equal(rpn_label, -1))` (network.py line
204): the indices, in increasing order, of anchors whose label is not `-1`. -/
def rpn_select (labels : List Int) : List Nat :=
  (List.range labels.length).filter fun i => labels.getD i 0 ≠ -1

/-- `tf.gather(xs, idx)` on a flat list, with a default for out-of-range
indices. -/
def gatherIdx {α : Type} (xs : List α) (d : α) (idx : List Nat) : List α :=
  idx.map fun i => xs.getD i d

/-- The RPN classification loss (network.py lines 202-209): gather only
scores and labels at `rpn_select`, then `reduce_mean` of the per-anchor
cross-entropy terms. The two-class softmax cross-entropy kernel `ce` is
the external TF primitive, taken as a parameter. -/
def rpn_cls_loss (ce : (ℚ × ℚ) → Int → ℚ) (scores : List (ℚ × ℚ))
    (labels : List Int) : ℚ :=
  mean (List.zipWith ce (gatherIdx scores (0, 0) (rpn_select labels))
    (gatherIdx labels 0 (rpn_select labels)))

/-- The regression-loss input gather (network.py lines 217-220): each of
`rpn_bbox_pred`, targets and weights reshaped to rows of 4 and gathered at
`rpn_select`. -/
def gather_bbox (xs : List Vec4) (labels : List Int) : List Vec4 :=
  gatherIdx xs Vec4.zero (rpn_select labels)

lemma mem_rpn_select (labels : List Int) (i : Nat) :
    i ∈ rpn_select labels ↔ i < labels.length ∧ labels.getD i 0 ≠ -1 := by
  unfold rpn_select
  rw [List.mem_filter, List.mem_range]
  simp

lemma getD_set_ne {α : Type} (xs : List α) (i j : Nat) (v d : α) (h : i ≠ j) :
    (xs.set i v).getD j d = xs.getD j d := by
  simp [List.getD, List.getElem?_set_ne h]

lemma gatherIdx_set_not_mem {α : Type} (xs : List α) (d v : α) (idx : List Nat)
    (i : Nat) (hi : i ∉ idx) :
    gatherIdx (xs.set i v) d idx = gatherIdx xs d idx := by
  unfold gatherIdx
  refine List.map_congr_left fun j hj => ?_
  exact getD_set_ne xs i j v d (fun hij => hi (hij ▸ hj))

/-- **C3.** The classification loss averages cross-entropy only over anchors
with label `≠ -1`: an anchor with label `0` or `1` is selected; an anchor
with label `-1` is not selected, and neither the cross-entropy mean nor the
gathered regression-loss inputs depend on that anchor's data. -/
theorem cls_loss_excludes_ignored (labels : List Int) (i : Nat)
    (hi : i < labels.length) :
    ((labels.getD i 0 = 0 ∨ labels.getD i 0 = 1) → i ∈ rpn_select labels) ∧
      (labels.getD i 0 = -1 →
        i ∉ rpn_select labels ∧
          (∀ ce (scores : List (ℚ × ℚ)) v,
            rpn_cls_loss ce (scores.set i v) labels = rpn_cls_loss ce scores labels) ∧
          (∀ (preds : List Vec4) w,
            gather_bbox (preds.set i w) labels = gather_bbox preds labels)) := by
  constructor
  · intro hlab
    rw [mem_rpn_select]
    refine ⟨hi, ?_⟩
    rcases hlab with h0 | h1
    · rw [h0]; decide
    · rw [h1]; decide
  · intro hig
    have hnotmem : i ∉ rpn_select labels := by
      rw [mem_rpn_select]
      intro h
      exact h.2 hig
    refine ⟨hnotmem, ?_, ?_⟩
    · intro ce scores v
      unfold rpn_cls_loss
      rw [gatherIdx_set_not_mem scores (0, 0) v (rpn_select labels) i hnotmem]
    · intro preds w
      unfold gather_bbox
      exact gatherIdx_set_not_mem preds Vec4.zero w (rpn_select labels) i hnotmem

/-- Witness for C3 on labels `[0, -1, 1]` at the ignored index `1`. -/
theorem cls_loss_excludes_ignored_witness :
    (1 ∉ rpn_select [0, -1, 1]) ∧ 2 ∈ rpn_select [0, -1, 1] :=
  ⟨((cls_loss_excludes_ignored [0, -1, 1] 1 (by decide)).2 (by decide)).1,
    (cls_loss_excludes_ignored [0, -1, 1] 2 (by decide)).1 (Or.inr (by decide))⟩

/-- The three named loss scalars stored in `self._losses` by
`_build_losses` (network.py lines 229-231). -/
structure Losses where
  rpn_cross_entropy : ℚ
  rpn_loss_box : ℚ
  total_loss : ℚ
deriving DecidableEq, Repr

/-- The tail of `_build_losses` (network.py lines 225-231): `rpn_loss =
rpn_cross_entropy + rpn_loss_box`, `total_loss = rpn_loss +
regularization_loss`, the three named scalars stored. -/
def build_losses (ce box regularization_loss : ℚ) : Losses :=
  ⟨ce, box, (ce + box) + regularization_loss⟩

/-- `train_step` (network.py lines 430-438): fetches the three named loss
scalars from `self._losses`. -/
def train_step_losses (L : Losses) : ℚ × ℚ × ℚ :=
  (L.rpn_cross_entropy, L.rpn_loss_box, L.total_loss)

/-- **C4, counterexample.** With cross-entropy `1`, box loss `2` and
regularization loss `3`, the stored total is `6`, not the sum `3` of the
classification and regression losses: the claim that the total has no
additional terms fails on the code. -/
theorem total_loss_counterexample :
    ¬ ((build_losses 1 2 3).total_loss
        = (build_losses 1 2 3).rpn_cross_entropy + (build_losses 1 2 3).rpn_loss_box) := by
  norm_num [build_losses]

/-- **C4, amended.** The training output is the three named loss scalars,
and the total equals the classification loss plus the regression loss plus
the L2 regularization loss collected from the graph. -/
theorem total_loss_eq_sum_with_regularization (ce box regu : ℚ) :
    train_step_losses (build_losses ce box regu) = (ce, box, ce + box + regu) := rfl

/-! ### Region-proposal dispatch (`_region_proposal`, network.py lines 303-312) -/

/-- Which of the three `py_func` layers run in one forward pass of
`_region_proposal`: the NMS `proposal_layer`, the `proposal_top_layer`,
and the `anchor_target_layer`. -/
structure LayersRun where
  proposal : Bool
  proposalTop : Bool
  anchorTarget : Bool
deriving DecidableEq, Repr

/-- The branch structure of `_region_proposal` (network.py lines 303-312):
when training, `_proposal_layer` and `_anchor_target_layer` both run;
when testing, `cfg.TEST.MODE = "nms"` runs `_proposal_layer`,
`cfg.TEST.MODE = "top"` runs `_proposal_top_layer`, and any other string
raises `NotImplementedError`. -/
def region_proposal_dispatch (is_training : Bool) (testMode : String) :
    Except String LayersRun :=
  if is_training then
    .ok ⟨true, false, true⟩
  else if testMode = "nms" then
    .ok ⟨true, false, false⟩
  else if testMode = "top" then
    .ok ⟨false, true, false⟩
  else
    .error "NotImplementedError"

/-- **C2.** In TEST mode exactly one decoding strategy runs, chosen by the
configured test mode: `"nms"` runs only the NMS proposal layer, `"top"`
runs only the top-K proposal layer, and every other configured string
fails with the unsupported-mode error; whenever construction succeeds the
two decoding layers never both run (nor neither). -/
theorem test_mode_single_strategy (m : String) :
    (m = "nms" → region_proposal_dispatch false m = .ok ⟨true, false, false⟩) ∧
      (m = "top" → region_proposal_dispatch false m = .ok ⟨false, true, false⟩) ∧
      (m ≠ "nms" → m ≠ "top" →
        region_proposal_dispatch false m = .error "NotImplementedError") ∧
      (∀ l, region_proposal_dispatch false m = .ok l → l.proposal ≠ l.proposalTop) := by
  refine ⟨?_, ?_, ?_, ?_⟩
  · intro h; subst h; rfl
  · intro h; subst h; rfl
  · intro h1 h2; simp [region_proposal_dispatch, h1, h2]
  · intro l hl
    simp only [region_proposal_dispatch, Bool.false_eq_true, if_false] at hl
    split_ifs at hl with h1 h2 <;> simp only [Except.ok.injEq, reduceCtorEq] at hl
    · subst hl; decide
    · subst hl; decide

/-- Witness for C2 at the supported mode `"nms"` and the unsupported mode
`"foo"`. -/
theorem test_mode_single_strategy_witness :
    region_proposal_dispatch false "nms" = .ok ⟨true, false, false⟩ ∧
      region_proposal_dispatch false "foo" = .error "NotImplementedError" :=
  ⟨(test_mode_single_strategy "nms").1 rfl,
    (test_mode_single_strategy "foo").2.2.1 (by decide) (by decide)⟩

/-- **C5.** In TRAIN mode every forward pass runs both the NMS proposal
layer (producing `rois`) and the anchor-target layer feeding the smooth-L1
loss — never only one of them — and the top-K layer does not run. -/
theorem train_mode_runs_both (m : String) :
    region_proposal_dispatch true m = .ok ⟨true, false, true⟩ := rfl

/-! ### Prediction dictionary and `create_architecture`
(network.py lines 314-319 and 330-396) -/

/-- The keys assigned into `self._predictions` by `_region_proposal`
(network.py lines 314-319), the only method of `Network` that writes
`self._predictions`. -/
def region_proposal_prediction_keys : List String :=
  ["rpn_cls_score", "rpn_cls_score_reshape", "rpn_cls_prob",
   "rpn_cls_pred", "rpn_bbox_pred", "rois"]

/-- `create_architecture` (network.py lines 330-396) reduced to its
dictionary-level dataflow: build the network (whose `_region_proposal`
dispatch may already fail), leaving `self._predictions` with exactly
`region_proposal_prediction_keys`; then in the testing branch read
`self._predictions["bbox_pred"]` (lines 371-374), which raises a missing
key error when absent; otherwise return the output-layer keys. -/
def create_architecture (mode testMode : String) : Except String (List String) :=
  match region_proposal_dispatch (mode = "TRAIN") testMode with
  | .error e => .error e
  | .ok _ =>
    if mode = "TEST" then
      if "bbox_pred" ∈ region_proposal_prediction_keys then
        .ok ("rois" :: region_proposal_prediction_keys)
      else
        .error "KeyError: bbox_pred"
    else
      .ok ("rois" :: region_proposal_prediction_keys)

/-- **C9.** For every call to `create_architecture` in mode `"TEST"` with a
supported decoding mode (`"nms"` or `"top"`), the testing branch reads the
prediction key `"bbox_pred"`, which no method of the class ever assigns
(only `"rpn_bbox_pred"` is stored), so the call fails with a missing-key
error instead of returning the output layers. -/
theorem test_architecture_missing_bbox_pred (testMode : String)
    (h : testMode = "nms" ∨ testMode = "top") :
    "bbox_pred" ∉ region_proposal_prediction_keys ∧
      create_architecture "TEST" testMode = .error "KeyError: bbox_pred" := by
  rcases h with h | h <;> subst h <;> exact ⟨by decide, rfl⟩

/-- Witness for C9 at the configured decoding mode `"nms"`. -/
theorem test_architecture_missing_bbox_pred_witness :
    "bbox_pred" ∉ region_proposal_prediction_keys ∧
      create_architecture "TEST" "nms" = .error "KeyError: bbox_pred" :=
  test_architecture_missing_bbox_pred "nms" (Or.inl rfl)

/-! ### Top-K proposal decoding (`_proposal_top_layer`, network.py lines 89-98) -/

/-- A box as four coordinates `(x1, y1, x2, y2)`. -/
structure Box where
  x1 : ℚ
  y1 : ℚ
  x2 : ℚ
  y2 : ℚ
deriving DecidableEq, Repr

/-- `clip(box, w, h)` (spec §4.2): clamp each coordinate into
`[0, w-1] × [0, h-1]`. -/
def clipBox (b : Box) (imW imH : ℚ) : Box :=
  ⟨max 0 (min b.x1 (imW - 1)), max 0 (min b.y1 (imH - 1)),
    max 0 (min b.x2 (imW - 1)), max 0 (min b.y2 (imH - 1))⟩

/-- Insert a scored proposal into a list kept in decreasing score order. -/
def insertDesc (p : Box × ℚ) : List (Box × ℚ) → List (Box × ℚ)
  | [] => [p]
  | q :: qs => if q.2 < p.2 then p :: q :: qs else q :: insertDesc p qs

/-- Sort scored proposals by decreasing score (insertion sort). -/
def sortDesc (l : List (Box × ℚ)) : List (Box × ℚ) := l.foldr insertDesc []

/-- Modelled from the spec: the `proposal_top_layer` kernel
(`lib/layer_utils/proposal_top_layer.py`), invoked through `tf.py_func` at
network.py lines 89-98, is not under `src/`; only its wrapper is (which
asserts the `[cfg.TEST.RPN_TOP_N, 5]` output shape). Spec §4.4, TopK
strategy: take the top `N` candidates by score, apply `decode` per anchor
(`BoxTransform.decode`, also outside `src/`, passed as a function), clip to
the image, and return exactly `N` proposals, padding with zero/degenerate
boxes when fewer valid anchors exist. -/
def proposal_top_layer (N : Nat) (decode : Box → Vec4 → Box)
    (anchors : List Box) (scores : List ℚ) (deltas : List Vec4)
    (imW imH : ℚ) : List (Box × ℚ) :=
  let cand := (anchors.zip (scores.zip deltas)).map
    fun c => (clipBox (decode c.1 c.2.2) imW imH, c.2.1)
  let taken := (sortDesc cand).take N
  taken ++ List.replicate (N - taken.length) (⟨0, 0, 0, 0⟩, 0)

/-- **C6.** For every input, top-K decoding returns exactly `N` scored
boxes (`N = cfg.TEST.RPN_TOP_N`): when fewer candidates than `N` exist the
output is padded with degenerate boxes up to exactly `N` entries. -/
theorem proposal_top_layer_length (N : Nat) (decode : Box → Vec4 → Box)
    (anchors : List Box) (scores : List ℚ) (deltas : List Vec4) (imW imH : ℚ) :
    (proposal_top_layer N decode anchors scores deltas imW imH).length = N := by
  unfold proposal_top_layer
  rw [List.length_append, List.length_replicate]
  have h : (((sortDesc ((anchors.zip (scores.zip deltas)).map
      fun c => (clipBox (decode c.1 c.2.2) imW imH, c.2.1))).take N)).length ≤ N := by
    rw [List.length_take]
    exact min_le_left _ _
  omega

/-! ### Layer wrappers, read-only configuration and determinism
(network.py lines 89-144) -/

/-- The four tensors produced by the anchor-target kernel and stored into
`self._anchor_targets` (network.py lines 125-140). -/
structure TargetOutputs where
  rpn_labels : List Int
  rpn_bbox_targets : List Vec4
  rpn_bbox_inside_weights : List Vec4
  rpn_bbox_outside_weights : List Vec4
deriving DecidableEq, Repr

/-- The fields of `Network` read or written by the three layer wrappers:
the read-only per-image configuration (`_gt_boxes`, `_im_info`,
`_feat_stride`, `_anchors`, `_num_anchors`, `_mode`, plus the injected
sampling seed required by spec §5), and the write-only caches
(`_anchor_targets`, `_score_summaries`). -/
structure NetState where
  gt_boxes : List (Vec4 × ℚ)
  im_info : ℚ × ℚ × ℚ
  feat_stride : ℚ
  anchors : List Box
  num_anchors : Nat
  mode : String
  seed : Nat
  anchor_targets : Option TargetOutputs
  score_summaries : Option TargetOutputs

/-- Modelled from the spec: the `anchor_target_layer` kernel
(`lib/layer_utils/anchor_target_layer.py`), invoked through `tf.py_func` at
network.py lines 125-129, is not under `src/`. Spec §5 states the core is
a pure synchronous computation, deterministic given the injected sampling
seed, so the kernel is modelled as an arbitrary function of exactly the
arguments the wrapper passes plus the seed. -/
def AnchorTargetKernel : Type :=
  List (ℚ × ℚ) → List (Vec4 × ℚ) → (ℚ × ℚ × ℚ) → ℚ → List Box → Nat → Nat →
    TargetOutputs

/-- Modelled from the spec: the NMS `proposal_layer` kernel
(`lib/layer_utils/proposal_layer.py`), invoked through `tf.py_func` at
network.py lines 100-112, is not under `src/`; spec §5 makes it a pure
function of the arguments the wrapper passes. -/
def ProposalKernel : Type :=
  List ℚ → List Vec4 → (ℚ × ℚ × ℚ) → String → ℚ → List Box → Nat →
    List (Box × ℚ)

/-- Modelled from the spec: the `proposal_top_layer` kernel as invoked by
its wrapper (network.py lines 89-98); a pure function of the arguments the
wrapper passes (spec §5). -/
def ProposalTopKernel : Type :=
  List ℚ → List Vec4 → (ℚ × ℚ × ℚ) → ℚ → List Box → Nat → List (Box × ℚ)

/-- `_anchor_target_layer` (network.py lines 117-144): call the kernel on
`rpn_cls_score` and the configuration fields, store the four outputs into
`self._anchor_targets`, merge them into `self._score_summaries`, and
return `rpn_labels`. -/
def anchor_target_layer_call (f : AnchorTargetKernel) (s : NetState)
    (rpn_cls_score : List (ℚ × ℚ)) : List Int × NetState :=
  let out := f rpn_cls_score s.gt_boxes s.im_info s.feat_stride s.anchors
    s.num_anchors s.seed
  (out.rpn_labels,
    ⟨s.gt_boxes, s.im_info, s.feat_stride, s.anchors, s.num_anchors, s.mode,
      s.seed, some out, some out⟩)

/-- `_proposal_layer` (network.py lines 100-112): call the NMS kernel on
the class probabilities, box deltas and the configuration fields. -/
def proposal_layer_call (f : ProposalKernel) (s : NetState)
    (rpn_cls_prob : List ℚ) (rpn_bbox_pred : List Vec4) : List (Box × ℚ) :=
  f rpn_cls_prob rpn_bbox_pred s.im_info s.mode s.feat_stride s.anchors
    s.num_anchors

/-- `_proposal_top_layer` (network.py lines 89-98): call the top-K kernel
on the class probabilities, box deltas and the configuration fields. -/
def proposal_top_layer_call (f : ProposalTopKernel) (s : NetState)
    (rpn_cls_prob : List ℚ) (rpn_bbox_pred : List Vec4) : List (Box × ℚ) :=
  f rpn_cls_prob rpn_bbox_pred s.im_info s.feat_stride s.anchors s.num_anchors

/-- Two network states agree on the read-only configuration (they may
differ arbitrarily on the mutable caches). -/
def configAgrees (s1 s2 : NetState) : Prop :=
  s1.gt_boxes = s2.gt_boxes ∧ s1.im_info = s2.im_info ∧
    s1.feat_stride = s2.feat_stride ∧ s1.anchors = s2.anchors ∧
    s1.num_anchors = s2.num_anchors ∧ s1.mode = s2.mode ∧ s1.seed = s2.seed

/-- **C8.** With fixed inputs and a fixed seed, the anchor-target layer and
both decoding layers are deterministic: their outputs depend only on the
inputs and the read-only configuration (two states agreeing on the
configuration give identical outputs, whatever their mutable caches hold),
and re-running the anchor-target layer on the state its own first call
produced returns the same labels — no hidden mutable state influences a
later call. -/
theorem layer_calls_deterministic (fA : AnchorTargetKernel)
    (fP : ProposalKernel) (fT : ProposalTopKernel) (s1 s2 : NetState)
    (h : configAgrees s1 s2) (cls_score : List (ℚ × ℚ)) (cls_prob : List ℚ)
    (bbox_pred : List Vec4) :
    (anchor_target_layer_call fA s1 cls_score).1
        = (anchor_target_layer_call fA s2 cls_score).1 ∧
      proposal_layer_call fP s1 cls_prob bbox_pred
        = proposal_layer_call fP s2 cls_prob bbox_pred ∧
      proposal_top_layer_call fT s1 cls_prob bbox_pred
        = proposal_top_layer_call fT s2 cls_prob bbox_pred ∧
      (anchor_target_layer_call fA (anchor_target_layer_call fA s1 cls_score).2
          cls_score).1
        = (anchor_target_layer_call fA s1 cls_score).1 := by
  obtain ⟨h1, h2, h3, h4, h5, h6, h7⟩ := h
  refine ⟨?_, ?_, ?_, rfl⟩
  · unfold anchor_target_layer_call
    rw [h1, h2, h3, h4, h5, h7]
  · unfold proposal_layer_call
    rw [h2, h3, h4, h5, h6]
  · unfold proposal_top_layer_call
    rw [h2, h3, h4, h5]

/-- Witness for C8: two states sharing the configuration but holding
different caches give the same labels under a concrete kernel. -/
theorem layer_calls_deterministic_witness :
    (anchor_target_layer_call (fun _ _ _ _ _ n _ => ⟨List.replicate n 0, [], [], []⟩)
        ⟨[], (4, 4, 1), 16, [], 10, "TRAIN", 7, none, none⟩ []).1
      = (anchor_target_layer_call (fun _ _ _ _ _ n _ => ⟨List.replicate n 0, [], [], []⟩)
          ⟨[], (4, 4, 1), 16, [], 10, "TRAIN", 7, some ⟨[1], [], [], []⟩, none⟩ []).1 :=
  (layer_calls_deterministic (fun _ _ _ _ _ n _ => ⟨List.replicate n 0, [], [], []⟩)
    (fun _ _ _ _ _ _ _ => []) (fun _ _ _ _ _ _ => [])
    ⟨[], (4, 4, 1), 16, [], 10, "TRAIN", 7, none, none⟩
    ⟨[], (4, 4, 1), 16, [], 10, "TRAIN", 7, some ⟨[1], [], [], []⟩, none⟩
    ⟨rfl, rfl, rfl, rfl, rfl, rfl, rfl⟩ [] [] []).1

end CTPN
